import Mathlib

/-!
Verification development for the Bailian client scripts
(`bailian_text2image_image_synthesis_v2.py`,
`bailian_video_generation_video_synthesis.py`,
`bailian_multimodal_generation_qwen_image.py`,
`bailian_multimodal_generation_qwen_tts.py`).

The Python code is embedded shallowly:

* JSON dictionaries become the `JsonVal` inductive; `dict.get`, `in`
  and `[...]` become `JsonVal.getField`.
* Network calls are abstracted by explicit backend parameters
  (the mocked response data), and each embedded client function
  returns the number of outbound network calls it performed
  alongside its Python return value / raised exception.
* Wall-clock time in the polling loop `wait_for_completion` is
  idealized: only `time.sleep(check_interval)` advances the elapsed
  time, queries themselves take zero time.  The loop is written as a
  fuel-based recursion (`waitLoop`); `none` marks fuel exhaustion and
  is proved unreachable whenever `check_interval ≥ 1`.
-/

/-- JSON values, modelling the Python dictionaries exchanged with the
platform.  Objects are association lists in insertion order; the
builders below insert every key at most once, matching `dict`. -/
inductive JsonVal where
  | str : String → JsonVal
  | num : Int → JsonVal
  | ratNum : Rat → JsonVal
  | bool : Bool → JsonVal
  | null : JsonVal
  | arr : List JsonVal → JsonVal
  | obj : List (String × JsonVal) → JsonVal

/-- First-match lookup in an association list with string keys. -/
def lookupKey {α : Type} : List (String × α) → String → Option α
  | [], _ => none
  | (k, v) :: rest, key => if k == key then some v else lookupKey rest key

/-- Field access on a JSON object: `d[key]` / `key in d` / `d.get(key)`.
Non-objects have no fields. -/
def JsonVal.getField : JsonVal → String → Option JsonVal
  | .obj fields, key => lookupKey fields key
  | _, _ => none

/-- Python `==` between a JSON value and a string literal: true exactly
when the value is that string (a non-string compares unequal). -/
def JsonVal.eqStr : JsonVal → String → Bool
  | .str s, t => s == t
  | _, _ => false

/-- Python truthiness of a JSON value (`if x:`). -/
def JsonVal.truthy : JsonVal → Bool
  | .str s => !(s == "")
  | .num n => !(n == 0)
  | .ratNum q => !(q == 0)
  | .bool b => b
  | .null => false
  | .arr l => !l.isEmpty
  | .obj l => !l.isEmpty

/-- Outcome of `wait_for_completion` (the identical loops at
`bailian_text2image_image_synthesis_v2.py:131-171` and
`bailian_video_generation_video_synthesis.py:161-203`).
Each constructor records the number of poll calls performed.

* `succeeded result polls` — the loop returned `result` (the whole
  response dict of the final poll).
* `remoteFailure message polls` — the loop raised
  `Exception(f"任务失败: {error_msg}")` where
  `error_msg = result["output"].get("message", "未知错误")`.
* `timeout polls` — the loop raised
  `Exception(f"任务超时，等待时间超过{max_wait_time}秒")`. -/
inductive WaitOutcome where
  | succeeded : JsonVal → Nat → WaitOutcome
  | remoteFailure : JsonVal → Nat → WaitOutcome
  | timeout : Nat → WaitOutcome

/-- One Python `while` loop of `wait_for_completion`, with an explicit
fuel argument so the recursion is structural.  `poll k` is the response
dictionary returned by the `k`-th call to `query_task_result`; `calls`
counts the polls already made, `elapsed` the idealized
`time.time() - start_time`.  `none` means the fuel ran out while the
loop condition still held (impossible for positive `check_interval`
and adequate fuel, see the theorems below). -/
def waitLoop (poll : Nat → JsonVal) (max_wait_time check_interval : Nat) :
    Nat → Nat → Nat → Option WaitOutcome
  | 0, calls, elapsed =>
      if elapsed < max_wait_time then none
      else some (WaitOutcome.timeout calls)
  | fuel + 1, calls, elapsed =>
      if elapsed < max_wait_time then
        let result := poll calls
        match result.getField "output" with
        | some output =>
          let task_status := (output.getField "task_status").getD (JsonVal.str "UNKNOWN")
          if task_status.eqStr "SUCCEEDED" then
            some (WaitOutcome.succeeded result (calls + 1))
          else if task_status.eqStr "FAILED" then
            some (WaitOutcome.remoteFailure
              ((output.getField "message").getD (JsonVal.str "未知错误")) (calls + 1))
          else if task_status.eqStr "PENDING" || task_status.eqStr "RUNNING" then
            waitLoop poll max_wait_time check_interval fuel (calls + 1) (elapsed + check_interval)
          else
            waitLoop poll max_wait_time check_interval fuel (calls + 1) (elapsed + check_interval)
        | none =>
          waitLoop poll max_wait_time check_interval fuel (calls + 1) (elapsed + check_interval)
      else some (WaitOutcome.timeout calls)

/-- Embedding of `wait_for_completion(task_id, max_wait_time,
check_interval)`: run the loop from zero polls and zero elapsed time.
Fuel `max_wait_time + 1` is enough whenever `check_interval ≥ 1`
because every retry adds `check_interval ≥ 1` to `elapsed`. -/
def wait_for_completion (poll : Nat → JsonVal) (max_wait_time check_interval : Nat) :
    Option WaitOutcome :=
  waitLoop poll max_wait_time check_interval (max_wait_time + 1) 0 0

/-- A poll response on which the loop keeps going: either the dict has
no `"output"` key, or the extracted status is neither `"SUCCEEDED"`
nor `"FAILED"`. -/
def isTransient (r : JsonVal) : Bool :=
  match r.getField "output" with
  | some output =>
    let s := (output.getField "task_status").getD (JsonVal.str "UNKNOWN")
    !(s.eqStr "SUCCEEDED") && !(s.eqStr "FAILED")
  | none => true

/-- A poll response whose `output.task_status` equals the given string. -/
def hasStatus (r : JsonVal) (s : String) : Bool :=
  match r.getField "output" with
  | some output => ((output.getField "task_status").getD (JsonVal.str "UNKNOWN")).eqStr s
  | none => false

/-- Ceiling of `(max_wait_time - elapsed) / check_interval` in natural
arithmetic: the number of poll calls the loop still performs when every
response is transient. -/
def pollBudget (max_wait_time check_interval elapsed : Nat) : Nat :=
  (max_wait_time - elapsed + check_interval - 1) / check_interval

/-- Request payload built by `create_image_task`
(`bailian_text2image_image_synthesis_v2.py:76-84`): the base dict with
`model`, `input.prompt` and `parameters.{size, n}`, and
`input.negative_prompt` added only when `negative_prompt` is truthy
(Python default `None`; the empty string is also falsy). -/
def buildImageTaskPayload (model prompt : String) (negative_prompt : Option String)
    (size : String) (n : Int) : JsonVal :=
  JsonVal.obj
    [("model", JsonVal.str model),
     ("input", JsonVal.obj
       ([("prompt", JsonVal.str prompt)] ++
        match negative_prompt with
        | some np => if np == "" then [] else [("negative_prompt", JsonVal.str np)]
        | none => [])),
     ("parameters", JsonVal.obj [("size", JsonVal.str size), ("n", JsonVal.num n)])]

/-- Exceptions `create_image_task` can raise
(`bailian_text2image_image_synthesis_v2.py:94-107`). -/
inductive SubmitError where
  | transport : String → SubmitError
  | taskCreateFailed : JsonVal → SubmitError

/-- Embedding of `BailianTextToImageV2.create_image_task`
(`bailian_text2image_image_synthesis_v2.py:54-107`).  It builds the
payload, performs exactly one network call (`requests.post`, its result
abstracted by `httpResponse`), and either returns
`result["output"]["task_id"]` or raises.  The first component of the
result is the number of outbound network calls performed.  Note the
source performs no validation of any argument before the call. -/
def create_image_task (model prompt : String) (negative_prompt : Option String)
    (size : String) (n : Int) (httpResponse : JsonVal → Except String JsonVal) :
    Nat × Except SubmitError JsonVal :=
  let data := buildImageTaskPayload model prompt negative_prompt size n
  match httpResponse data with
  | .error e => (1, .error (SubmitError.transport e))
  | .ok result =>
    match result.getField "output" with
    | some output =>
      match output.getField "task_id" with
      | some task_id => (1, .ok task_id)
      | none => (1, .error (SubmitError.taskCreateFailed result))
    | none => (1, .error (SubmitError.taskCreateFailed result))

/-- Embedding of `BailianTextToImageV2.generate_image`
(`bailian_text2image_image_synthesis_v2.py:173-202`): create the task,
then wait for completion with the given `max_wait_time` and the default
`check_interval = 5`.  Exceptions from either phase propagate. -/
def generate_image (model prompt : String) (negative_prompt : Option String)
    (size : String) (n : Int) (max_wait_time : Nat)
    (httpResponse : JsonVal → Except String JsonVal) (poll : JsonVal → Nat → JsonVal) :
    Except SubmitError (Option WaitOutcome) :=
  match (create_image_task model prompt negative_prompt size n httpResponse).2 with
  | .error e => .error e
  | .ok task_id => .ok (wait_for_completion (poll task_id) max_wait_time 5)

/-- Size catalog of the qwen-image client
(`bailian_multimodal_generation_qwen_image.py:52-58`). -/
def qwen_available_sizes : List (String × String) :=
  [("1664*928", "16:9 横屏"),
   ("1472*1140", "4:3 横屏"),
   ("1328*1328", "1:1 正方形（默认）"),
   ("1140*1472", "3:4 竖屏"),
   ("928*1664", "9:16 竖屏")]

/-- Parameter dict built by `BailianImageGeneration.generate_image`
(`bailian_multimodal_generation_qwen_image.py:111-122`):
`negative_prompt` is added only when truthy (nonempty), `seed` only
when not `None`. -/
def buildQwenImageParameters (size : String) (n : Int) (prompt_extend watermark : Bool)
    (negative_prompt : String) (seed : Option Int) : List (String × JsonVal) :=
  [("size", JsonVal.str size), ("n", JsonVal.num n),
   ("prompt_extend", JsonVal.bool prompt_extend), ("watermark", JsonVal.bool watermark)] ++
  (if negative_prompt == "" then [] else [("negative_prompt", JsonVal.str negative_prompt)]) ++
  (match seed with
   | some s => [("seed", JsonVal.num s)]
   | none => [])

/-- Response of `MultiModalConversation.call` as the qwen-image client
reads it: HTTP status code, error message, `output` object and request
identifier. -/
structure QwenResponse where
  status_code : Nat
  message : String
  output : Option JsonVal
  request_id : String

/-- Return value of the embedded `BailianImageGeneration.generate_image`.
`raised` is a `ValueError` propagating to the caller (only the
validation block at lines 85-98 can do this); `ok url rid` is the
success dict `{'success': True, 'image_url': url, 'request_id': rid, ...}`;
`failed err rid` is the dict `{'success': False, 'error': err,
'request_id': rid}` returned by the `except` handler. -/
inductive QwenOutcome where
  | raised : String → QwenOutcome
  | ok : String → String → QwenOutcome
  | failed : String → String → QwenOutcome

/-- Scan of the message content list for the first dict bearing an
`image` key (`bailian_multimodal_generation_qwen_image.py:160-164`). -/
def findImageUrl : List JsonVal → Option JsonVal
  | [] => none
  | item :: rest =>
    match item.getField "image" with
    | some url => some url
    | none => findImageUrl rest

/-- Embedding of `BailianImageGeneration.generate_image`
(`bailian_multimodal_generation_qwen_image.py:60-186`).  The validation
block runs before the payload is built and before the single network
call (abstracted by `callResult`); every exception raised inside the
`try` block — including the `ValueError`s of the response-format checks
— is caught and converted to the `failed` dict whose `error` is
`str(e)`.  First component: number of outbound network calls.
The model reads `choices`, when present and truthy, as a JSON array and
the found image URL as a string, as the platform schema guarantees. -/
def qwen_generate_image (prompt negative_prompt size : String)
    (prompt_extend watermark : Bool) (seed : Option Int) (n : Int)
    (callResult : Except String QwenResponse) : Nat × QwenOutcome :=
  if prompt.length > 800 then (0, .raised "提示词长度不能超过800字符")
  else if negative_prompt.length > 500 then (0, .raised "反向提示词长度不能超过500字符")
  else if (lookupKey qwen_available_sizes size).isNone then
    (0, .raised ("不支持的尺寸: " ++ size))
  else if n != 1 then (0, .raised "当前仅支持生成1张图像")
  else
    let _parameters := buildQwenImageParameters size n prompt_extend watermark negative_prompt seed
    match callResult with
    | .error e => (1, .failed e "")
    | .ok response =>
      if response.status_code != 200 then
        (1, .failed ("API调用失败: " ++ toString response.status_code ++ ", " ++ response.message) response.request_id)
      else
        match response.output with
        | none => (1, .failed "API响应格式错误: 缺少choices字段" response.request_id)
        | some output =>
          match output.getField "choices" with
          | none => (1, .failed "API响应格式错误: 缺少choices字段" response.request_id)
          | some choicesVal =>
            if !choicesVal.truthy then
              (1, .failed "API响应格式错误: 缺少choices字段" response.request_id)
            else
              match choicesVal with
              | .arr (choice :: _) =>
                match choice.getField "message" with
                | none => (1, .failed "API响应格式错误: 缺少message.content字段" response.request_id)
                | some message =>
                  match message.getField "content" with
                  | none => (1, .failed "API响应格式错误: 缺少message.content字段" response.request_id)
                  | some content =>
                    match content with
                    | .arr items =>
                      if items.isEmpty then
                        (1, .failed "API响应格式错误: content字段格式不正确" response.request_id)
                      else
                        match findImageUrl items with
                        | some (JsonVal.str url) => (1, .ok url response.request_id)
                        | some _ => (1, .failed "API响应中没有找到图片URL" response.request_id)
                        | none => (1, .failed "API响应中没有找到图片URL" response.request_id)
                    | _ => (1, .failed "API响应格式错误: content字段格式不正确" response.request_id)
              | _ => (1, .failed "API响应格式错误: 缺少message.content字段" response.request_id)

/-- Voice catalog of the TTS client
(`bailian_multimodal_generation_qwen_tts.py:57-70`). -/
def available_voices : List (String × String) :=
  [("Cherry", "Cherry - 甜美女声"),
   ("Chelsie", "Chelsie - 温和女声"),
   ("zhichu", "知初 - 温和知性女声"),
   ("zhixiaobai", "知小白 - 活泼可爱女声"),
   ("zhixiaoxia", "知小夏 - 清新甜美女声"),
   ("zhimiao", "知妙 - 优雅成熟女声"),
   ("zhiyan", "知燕 - 温柔亲和女声"),
   ("zhiyuan", "知远 - 稳重磁性男声"),
   ("zhiyun", "知云 - 清朗自然男声"),
   ("zhishuo", "知硕 - 成熟稳重男声"),
   ("zhiwei", "知维 - 理性专业男声"),
   ("zhihao", "知豪 - 豪迈大气男声")]

/-- Audio format catalog of the TTS client
(`bailian_multimodal_generation_qwen_tts.py:73-77`). -/
def available_formats : List (String × String) :=
  [("wav", "WAV格式 - 无损音质"),
   ("mp3", "MP3格式 - 压缩音质"),
   ("pcm", "PCM格式 - 原始音频数据")]

/-- Validation block of `synthesize_speech`
(`bailian_multimodal_generation_qwen_tts.py:104-125`): returns the
message of the first failing check as `some`, or `none` when every
check passes.  Volume, speech rate and pitch rate are modelled as exact
rationals. -/
def tts_validate (text voice format : String)
    (volume speech_rate pitch_rate : Rat) : Option String :=
  if text.length > 500 then some "文本长度不能超过500字符"
  else if (lookupKey available_voices voice).isNone then
    some ("不支持的音色: " ++ voice)
  else if (lookupKey available_formats format).isNone then
    some ("不支持的格式: " ++ format)
  else if !(0.1 ≤ volume ∧ volume ≤ 2.0) then some "音量范围应在0.1-2.0之间"
  else if !(0.5 ≤ speech_rate ∧ speech_rate ≤ 2.0) then some "语速范围应在0.5-2.0之间"
  else if !(0.5 ≤ pitch_rate ∧ pitch_rate ≤ 2.0) then some "音调范围应在0.5-2.0之间"
  else none

/-- Request payload built by `synthesize_speech`
(`bailian_multimodal_generation_qwen_tts.py:127-148`): base dict with
`model` and `input.{text, voice}`; a `parameters` dict is added only
when some knob differs from its default, and then only the non-default
knobs appear in it. -/
def buildTTSPayload (text voice format : String) (sample_rate : Int)
    (volume speech_rate pitch_rate : Rat) : JsonVal :=
  JsonVal.obj
    ([("model", JsonVal.str "qwen-tts"),
      ("input", JsonVal.obj [("text", JsonVal.str text), ("voice", JsonVal.str voice)])] ++
     (if format != "wav" || sample_rate != 22050 || volume != 1.0 ||
         speech_rate != 1.0 || pitch_rate != 1.0 then
        [("parameters", JsonVal.obj
          ((if format != "wav" then [("format", JsonVal.str format)] else []) ++
           (if sample_rate != 22050 then [("sample_rate", JsonVal.num sample_rate)] else []) ++
           (if volume != 1.0 then [("volume", JsonVal.ratNum volume)] else []) ++
           (if speech_rate != 1.0 then [("speech_rate", JsonVal.ratNum speech_rate)] else []) ++
           (if pitch_rate != 1.0 then [("pitch_rate", JsonVal.ratNum pitch_rate)] else [])))]
      else []))

/-- Network and library effects `synthesize_speech` depends on:
the `requests.post` call (fed the payload), the `requests.get` download
of a returned audio URL, and `base64.b64decode`.  Each may fail with an
exception message; audio bytes are modelled as `List Nat`. -/
structure TTSBackend where
  post : JsonVal → Except String JsonVal
  download : JsonVal → Except String (List Nat)
  b64decode : JsonVal → Except String (List Nat)

/-- Return value of the embedded `synthesize_speech`.  `raised msg` is
a `ValueError` propagating to the caller; `ok bytes url` is the success
dict `{'success': True, 'audio_data': bytes, 'audio_url': url, ...}`
(`audio_url` is `audio_info.get('url', '')`; the remaining informational
keys are omitted from the model); `failed err` is the dict
`{'success': False, 'error': err, 'audio_data': None}` produced by the
two `except` handlers. -/
inductive TTSOutcome where
  | raised : String → TTSOutcome
  | ok : List Nat → JsonVal → TTSOutcome
  | failed : String → TTSOutcome

/-- Whether a `TTSOutcome` is a propagated exception rather than a
returned dict. -/
def TTSOutcome.isRaised : TTSOutcome → Bool
  | .raised _ => true
  | _ => false

/-- Embedding of `BailianTTSGeneration.synthesize_speech`
(`bailian_multimodal_generation_qwen_tts.py:79-213`).  The validation
block can raise; everything after it sits inside `try`, whose
`except requests.exceptions.RequestException` and `except Exception`
handlers turn any later failure into the `failed` dict — the
format-check `ValueError`s raised at lines 167-189 are caught there and
prefixed with `"处理失败: "`, transport errors with `"请求失败: "`.
First component: number of outbound network calls performed. -/
def synthesize_speech (text voice format : String) (sample_rate : Int)
    (volume speech_rate pitch_rate : Rat) (backend : TTSBackend) :
    Nat × TTSOutcome :=
  match tts_validate text voice format volume speech_rate pitch_rate with
  | some msg => (0, .raised msg)
  | none =>
    let data := buildTTSPayload text voice format sample_rate volume speech_rate pitch_rate
    match backend.post data with
    | .error e => (1, .failed ("请求失败: " ++ e))
    | .ok result =>
      match result.getField "output" with
      | none => (1, .failed "处理失败: API响应格式错误: 缺少output字段")
      | some output =>
        match output.getField "audio" with
        | none => (1, .failed "处理失败: API响应格式错误: 缺少audio字段")
        | some audio_info =>
          match audio_info.getField "url" with
          | some url =>
            match backend.download url with
            | .error e => (2, .failed ("请求失败: " ++ e))
            | .ok audio_data => (2, .ok audio_data ((audio_info.getField "url").getD (JsonVal.str "")))
          | none =>
            match audio_info.getField "data" with
            | some d =>
              if d.truthy then
                match backend.b64decode d with
                | .error e => (1, .failed ("处理失败: " ++ e))
                | .ok audio_data => (1, .ok audio_data ((audio_info.getField "url").getD (JsonVal.str "")))
              else (1, .failed "处理失败: API响应中没有找到音频数据")
            | none => (1, .failed "处理失败: API响应中没有找到音频数据")

/-- A dict-valued heap, enough to express Python reference semantics of
the catalog getters: each address holds one string-to-string dict. -/
structure PyHeap where
  cells : List (List (String × String))

/-- Contents of the dict at an address (missing addresses read as the
empty dict; the theorems always work at valid addresses). -/
def PyHeap.readDict (h : PyHeap) (a : Nat) : List (String × String) :=
  (h.cells.get? a).getD []

/-- Allocation of a fresh dict: the new address is distinct from every
existing one. -/
def PyHeap.alloc (h : PyHeap) (d : List (String × String)) : PyHeap × Nat :=
  (⟨h.cells ++ [d]⟩, h.cells.length)

/-- In-place mutation of the dict at an address, overwriting its whole
contents — this subsumes any sequence of Python item assignments,
updates and deletions applied to that dict. -/
def PyHeap.setCell (h : PyHeap) (a : Nat) (d : List (String × String)) : PyHeap :=
  ⟨h.cells.set a d⟩

/-- Embedding of `BailianImageGeneration.get_size_list`
(`bailian_multimodal_generation_qwen_image.py:219-226`):
`return self.available_sizes.copy()` — read the client's catalog dict
and return a freshly allocated copy of it. -/
def get_size_list (h : PyHeap) (selfSizesAddr : Nat) : PyHeap × Nat :=
  h.alloc (h.readDict selfSizesAddr)

/-- Embedding of `BailianTTSGeneration.get_voice_list`
(`bailian_multimodal_generation_qwen_tts.py:253-260`):
`return self.available_voices.copy()`. -/
def get_voice_list (h : PyHeap) (selfVoicesAddr : Nat) : PyHeap × Nat :=
  h.alloc (h.readDict selfVoicesAddr)

/-- Embedding of `BailianTTSGeneration.get_format_list`
(`bailian_multimodal_generation_qwen_tts.py:262-269`):
`return self.available_formats.copy()`. -/
def get_format_list (h : PyHeap) (selfFormatsAddr : Nat) : PyHeap × Nat :=
  h.alloc (h.readDict selfFormatsAddr)

/-- The membership test `size not in self.available_sizes` (negated)
used by `generate_image` validation
(`bailian_multimodal_generation_qwen_image.py:92-95`), reading the
catalog from the heap. -/
def sizeAccepted (h : PyHeap) (selfSizesAddr : Nat) (size : String) : Bool :=
  (lookupKey (h.readDict selfSizesAddr) size).isSome

/-- The membership test `voice not in self.available_voices` (negated)
used by `synthesize_speech` validation
(`bailian_multimodal_generation_qwen_tts.py:108-111`), reading the
catalog from the heap. -/
def voiceAccepted (h : PyHeap) (selfVoicesAddr : Nat) (voice : String) : Bool :=
  (lookupKey (h.readDict selfVoicesAddr) voice).isSome

/-- Mock poll response: a task still running. -/
def runningResp : JsonVal :=
  JsonVal.obj [("output", JsonVal.obj
    [("task_status", JsonVal.str "RUNNING"), ("task_id", JsonVal.str "T1")])]

/-- Mock poll response: the succeeded terminal payload of the §8
concrete scenario, carrying `results = [{url: "http://x/1.png"}]`. -/
def succResp : JsonVal :=
  JsonVal.obj [("output", JsonVal.obj
    [("task_status", JsonVal.str "SUCCEEDED"), ("task_id", JsonVal.str "T1"),
     ("results", JsonVal.arr [JsonVal.obj [("url", JsonVal.str "http://x/1.png")]])])]

/-- Output object of a mock FAILED poll with `message: "quota exceeded"`. -/
def failOutput : JsonVal :=
  JsonVal.obj [("task_status", JsonVal.str "FAILED"),
    ("message", JsonVal.str "quota exceeded")]

/-- Mock poll response: a FAILED task with `message: "quota exceeded"`. -/
def failResp : JsonVal := JsonVal.obj [("output", failOutput)]

/-- Mock poll response carrying a status string outside the four the
loop recognizes. -/
def canceledResp : JsonVal :=
  JsonVal.obj [("output", JsonVal.obj [("task_status", JsonVal.str "CANCELED")])]

/-- Mock 200 poll response with no `output` field at all. -/
def noOutputResp : JsonVal := JsonVal.obj [("request_id", JsonVal.str "rid")]

/-- Mock 200 submission response delivering `task_id = "T1"`. -/
def submitOkResp : JsonVal :=
  JsonVal.obj [("output", JsonVal.obj [("task_id", JsonVal.str "T1")])]

/-- Mock 200 submission response whose `output` lacks `task_id`. -/
def noTaskIdResp : JsonVal :=
  JsonVal.obj [("output", JsonVal.obj [("task_status", JsonVal.str "PENDING")])]

/-- A prompt of 801 characters, one past the documented 800-character
maximum. -/
def longPrompt : String := String.mk (List.replicate 801 'a')

/-- Mock TTS effect backend whose POST fails with a transport error. -/
def mockTTSBackend : TTSBackend :=
  ⟨fun _ => .error "boom", fun _ => .error "down", fun _ => .error "bad"⟩

theorem eqStr_ne {v : JsonVal} {s t : String} (h : v.eqStr s = true) (hne : s ≠ t) :
    v.eqStr t = false := by
  cases v <;> simp_all [JsonVal.eqStr]

theorem isTransient_some {r output : JsonVal} (hout : r.getField "output" = some output)
    (ht : isTransient r = true) :
    ((output.getField "task_status").getD (JsonVal.str "UNKNOWN")).eqStr "SUCCEEDED" = false ∧
    ((output.getField "task_status").getD (JsonVal.str "UNKNOWN")).eqStr "FAILED" = false := by
  unfold isTransient at ht
  rw [hout] at ht
  simpa using ht

theorem hasStatus_some {r : JsonVal} {s : String} (h : hasStatus r s = true) :
    ∃ output, r.getField "output" = some output ∧
      ((output.getField "task_status").getD (JsonVal.str "UNKNOWN")).eqStr s = true := by
  unfold hasStatus at h
  cases hout : r.getField "output" with
  | none => rw [hout] at h; simp at h
  | some output => rw [hout] at h; exact ⟨output, rfl, by simpa using h⟩

theorem hasStatus_transient {r : JsonVal} {s : String} (h : hasStatus r s = true)
    (h1 : s ≠ "SUCCEEDED") (h2 : s ≠ "FAILED") : isTransient r = true := by
  obtain ⟨output, hout, heq⟩ := hasStatus_some h
  unfold isTransient
  rw [hout]
  simp [eqStr_ne heq h1, eqStr_ne heq h2]

theorem waitLoop_timeout (poll : Nat → JsonVal) (mw iv fuel calls elapsed : Nat)
    (h : ¬ elapsed < mw) :
    waitLoop poll mw iv fuel calls elapsed = some (WaitOutcome.timeout calls) := by
  cases fuel <;> simp [waitLoop, h]

theorem waitLoop_succeeded_step (poll : Nat → JsonVal) (mw iv fuel calls elapsed : Nat)
    (hlt : elapsed < mw) (output : JsonVal)
    (hout : (poll calls).getField "output" = some output)
    (hst : ((output.getField "task_status").getD (JsonVal.str "UNKNOWN")).eqStr "SUCCEEDED"
      = true) :
    waitLoop poll mw iv (fuel + 1) calls elapsed =
      some (WaitOutcome.succeeded (poll calls) (calls + 1)) := by
  simp [waitLoop, hlt, hout, hst]

theorem waitLoop_failed_step (poll : Nat → JsonVal) (mw iv fuel calls elapsed : Nat)
    (hlt : elapsed < mw) (output : JsonVal)
    (hout : (poll calls).getField "output" = some output)
    (hst : ((output.getField "task_status").getD (JsonVal.str "UNKNOWN")).eqStr "FAILED"
      = true) :
    waitLoop poll mw iv (fuel + 1) calls elapsed =
      some (WaitOutcome.remoteFailure
        ((output.getField "message").getD (JsonVal.str "未知错误")) (calls + 1)) := by
  have hns : ((output.getField "task_status").getD (JsonVal.str "UNKNOWN")).eqStr "SUCCEEDED"
      = false := by
    cases hv : (output.getField "task_status").getD (JsonVal.str "UNKNOWN") <;>
      rw [hv] at hst <;> simp_all [JsonVal.eqStr]
  simp [waitLoop, hlt, hout, hst, hns]

theorem waitLoop_transient_step (poll : Nat → JsonVal) (mw iv fuel calls elapsed : Nat)
    (hlt : elapsed < mw) (ht : isTransient (poll calls) = true) :
    waitLoop poll mw iv (fuel + 1) calls elapsed =
      waitLoop poll mw iv fuel (calls + 1) (elapsed + iv) := by
  cases hout : (poll calls).getField "output" with
  | none => simp [waitLoop, hlt, hout]
  | some output =>
    obtain ⟨h1, h2⟩ := isTransient_some hout ht
    simp [waitLoop, hlt, hout, h1, h2]

theorem waitLoop_skip (poll : Nat → JsonVal) (mw iv : Nat) :
    ∀ N fuel calls elapsed,
      (∀ k, k < N → isTransient (poll (calls + k)) = true) →
      elapsed + N * iv < mw →
      waitLoop poll mw iv (N + fuel) calls elapsed =
        waitLoop poll mw iv fuel (calls + N) (elapsed + N * iv) := by
  intro N
  induction N with
  | zero => intro fuel calls elapsed _ _; simp
  | succ N ih =>
    intro fuel calls elapsed htrans helapsed
    have hlt : elapsed < mw := by
      have : elapsed ≤ elapsed + (N + 1) * iv := Nat.le_add_right _ _
      omega
    have hstep : N + 1 + fuel = (N + fuel) + 1 := by omega
    rw [hstep,
      waitLoop_transient_step poll mw iv (N + fuel) calls elapsed hlt
        (by simpa using htrans 0 (by omega))]
    have e2 : elapsed + iv + N * iv = elapsed + (N + 1) * iv := by ring
    have ih' := ih fuel (calls + 1) (elapsed + iv)
      (by
        intro k hk
        have h := htrans (k + 1) (by omega)
        have e : calls + (k + 1) = calls + 1 + k := by omega
        rwa [e] at h)
      (by rw [e2]; exact helapsed)
    rw [ih', e2]
    have e1 : calls + 1 + N = calls + (N + 1) := by omega
    rw [e1]

theorem pollBudget_of_expired (mw iv elapsed : Nat) (hiv : 0 < iv) (h : mw ≤ elapsed) :
    pollBudget mw iv elapsed = 0 := by
  unfold pollBudget
  have h0 : mw - elapsed = 0 := by omega
  rw [h0]
  exact Nat.div_eq_of_lt (by omega)

theorem pollBudget_succ (mw iv elapsed : Nat) (hiv : 0 < iv) (h : elapsed < mw) :
    pollBudget mw iv elapsed = pollBudget mw iv (elapsed + iv) + 1 := by
  unfold pollBudget
  rcases le_or_lt (mw - elapsed) iv with hle | hgt
  · have h0 : mw - (elapsed + iv) = 0 := by omega
    rw [h0]
    have h1 : (0 + iv - 1) / iv = 0 := Nat.div_eq_of_lt (by omega)
    rw [h1]
    have h2 : mw - elapsed + iv - 1 = (mw - elapsed - 1) + iv := by omega
    rw [h2, Nat.add_div_right _ hiv, Nat.div_eq_of_lt (by omega)]
  · have h2 : mw - elapsed + iv - 1 = (mw - (elapsed + iv) + iv - 1) + iv := by omega
    rw [h2, Nat.add_div_right _ hiv]

theorem waitLoop_all_transient (poll : Nat → JsonVal) (mw iv : Nat) (hiv : 0 < iv)
    (htrans : ∀ k, isTransient (poll k) = true) :
    ∀ fuel calls elapsed, pollBudget mw iv elapsed ≤ fuel →
      waitLoop poll mw iv fuel calls elapsed =
        some (WaitOutcome.timeout (calls + pollBudget mw iv elapsed)) := by
  intro fuel
  induction fuel with
  | zero =>
    intro calls elapsed hb
    have hb0 : pollBudget mw iv elapsed = 0 := Nat.le_zero.mp hb
    have hge : mw ≤ elapsed := by
      by_contra hlt
      push_neg at hlt
      have h1 : 1 ≤ pollBudget mw iv elapsed := by
        unfold pollBudget
        exact (Nat.le_div_iff_mul_le hiv).mpr (by omega)
      omega
    rw [waitLoop_timeout poll mw iv 0 calls elapsed (by omega), hb0, Nat.add_zero]
  | succ fuel ih =>
    intro calls elapsed hb
    by_cases hlt : elapsed < mw
    · rw [waitLoop_transient_step poll mw iv fuel calls elapsed hlt (htrans calls)]
      have hsucc := pollBudget_succ mw iv elapsed hiv hlt
      rw [ih (calls + 1) (elapsed + iv) (by omega)]
      have e : calls + 1 + pollBudget mw iv (elapsed + iv) = calls + pollBudget mw iv elapsed := by
        omega
      rw [e]
    · rw [waitLoop_timeout poll mw iv (fuel + 1) calls elapsed hlt,
        pollBudget_of_expired mw iv elapsed hiv (by omega), Nat.add_zero]

/-- C1: with a poller that reports PENDING or RUNNING for the first `N`
polls and SUCCEEDED on poll `N`, all within the wait ceiling
(`N * check_interval < max_wait_time` in the idealized clock where only
the sleeps advance time), `wait_for_completion` returns that SUCCEEDED
poll response and has performed exactly `N + 1` poll calls. -/
theorem wait_for_completion_pending_then_succeeded
    (poll : Nat → JsonVal) (max_wait_time check_interval N : Nat)
    (hiv : 1 ≤ check_interval)
    (hpend : ∀ k, k < N →
      hasStatus (poll k) "PENDING" = true ∨ hasStatus (poll k) "RUNNING" = true)
    (hsucc : hasStatus (poll N) "SUCCEEDED" = true)
    (helapsed : N * check_interval < max_wait_time) :
    wait_for_completion poll max_wait_time check_interval =
      some (WaitOutcome.succeeded (poll N) (N + 1)) := by
  have hN : N ≤ N * check_interval := Nat.le_mul_of_pos_right N hiv
  have hfuel : max_wait_time + 1 = N + (max_wait_time - N + 1) := by omega
  unfold wait_for_completion
  rw [hfuel, waitLoop_skip poll max_wait_time check_interval N (max_wait_time - N + 1) 0 0
    (by
      intro k hk
      have h := hpend k hk
      rcases h with h | h
      · exact hasStatus_transient (by simpa using h) (by decide) (by decide)
      · exact hasStatus_transient (by simpa using h) (by decide) (by decide))
    (by omega)]
  obtain ⟨output, hout, hst⟩ := hasStatus_some hsucc
  have e0 : (0 : Nat) + N = N := by omega
  rw [e0]
  exact waitLoop_succeeded_step poll max_wait_time check_interval (max_wait_time - N)
    N (0 + N * check_interval) (by omega) output hout hst

/-- C2: with positive `max_wait_time` and `check_interval` and a poller
that always reports RUNNING, `wait_for_completion` fails with the
timeout error once the idealized elapsed time reaches `max_wait_time`,
having performed exactly
`⌈max_wait_time / check_interval⌉ = (max_wait_time + check_interval - 1) / check_interval`
poll calls — in particular no more than that ceiling. -/
theorem wait_for_completion_always_running_times_out
    (poll : Nat → JsonVal) (max_wait_time check_interval : Nat)
    (hmw : 0 < max_wait_time) (hiv : 0 < check_interval)
    (hrun : ∀ k, hasStatus (poll k) "RUNNING" = true) :
    wait_for_completion poll max_wait_time check_interval =
      some (WaitOutcome.timeout
        ((max_wait_time + check_interval - 1) / check_interval)) := by
  have htrans : ∀ k, isTransient (poll k) = true := fun k =>
    hasStatus_transient (hrun k) (by decide) (by decide)
  have hble : pollBudget max_wait_time check_interval 0 ≤ max_wait_time + 1 := by
    unfold pollBudget
    apply Nat.div_le_of_le_mul
    have : max_wait_time ≤ check_interval * max_wait_time := Nat.le_mul_of_pos_left _ hiv
    calc max_wait_time - 0 + check_interval - 1
        ≤ check_interval * max_wait_time + check_interval := by omega
      _ ≤ check_interval * (max_wait_time + 1) := by ring_nf; omega
  unfold wait_for_completion
  rw [waitLoop_all_transient poll max_wait_time check_interval hiv htrans
    (max_wait_time + 1) 0 0 hble]
  unfold pollBudget
  norm_num

/-- C3: whenever the poll reaching a FAILED terminal status carries a
`"message"` field with string value `m` — after any number `N` of
transient polls, still within the wait ceiling —
`wait_for_completion` raises the remote-failure error whose reason is
exactly the string `m`, after `N + 1` poll calls. -/
theorem wait_for_completion_failed_surfaces_message
    (poll : Nat → JsonVal) (max_wait_time check_interval N : Nat)
    (output : JsonVal) (m : String)
    (hiv : 1 ≤ check_interval)
    (htrans : ∀ k, k < N → isTransient (poll k) = true)
    (hout : (poll N).getField "output" = some output)
    (hfail : output.getField "task_status" = some (JsonVal.str "FAILED"))
    (hmsg : output.getField "message" = some (JsonVal.str m))
    (helapsed : N * check_interval < max_wait_time) :
    wait_for_completion poll max_wait_time check_interval =
      some (WaitOutcome.remoteFailure (JsonVal.str m) (N + 1)) := by
  have hN : N ≤ N * check_interval := Nat.le_mul_of_pos_right N hiv
  have hfuel : max_wait_time + 1 = N + (max_wait_time - N + 1) := by omega
  unfold wait_for_completion
  rw [hfuel, waitLoop_skip poll max_wait_time check_interval N (max_wait_time - N + 1) 0 0
    (by intro k hk; simpa using htrans k hk) (by omega)]
  have e0 : (0 : Nat) + N = N := by omega
  rw [e0]
  have := waitLoop_failed_step poll max_wait_time check_interval (max_wait_time - N)
    N (0 + N * check_interval) (by omega) output hout
    (by rw [hfail]; rfl)
  rw [this, hmsg]
  rfl

/-- C5: a poll whose `output.task_status` is a string other than
SUCCEEDED, FAILED, PENDING and RUNNING is never treated as fatal: while
the wait ceiling has not been reached, the loop behaves exactly as on a
pending poll — it sleeps `check_interval` and continues as the same
loop on the next poll, so it can only end later in a terminal status or
in the `max_wait_time` timeout. -/
theorem waitLoop_unknown_status_retries
    (poll : Nat → JsonVal) (max_wait_time check_interval fuel calls elapsed : Nat)
    (output : JsonVal) (s : String)
    (hlt : elapsed < max_wait_time)
    (hout : (poll calls).getField "output" = some output)
    (hst : output.getField "task_status" = some (JsonVal.str s))
    (h1 : s ≠ "SUCCEEDED") (h2 : s ≠ "FAILED") (h3 : s ≠ "PENDING") (h4 : s ≠ "RUNNING") :
    waitLoop poll max_wait_time check_interval (fuel + 1) calls elapsed =
      waitLoop poll max_wait_time check_interval fuel (calls + 1)
        (elapsed + check_interval) := by
  apply waitLoop_transient_step poll max_wait_time check_interval fuel calls elapsed hlt
  unfold isTransient
  rw [hout]
  simp [hst, JsonVal.eqStr, h1, h2]

/-- Concrete instance of `wait_for_completion_pending_then_succeeded`:
two RUNNING polls, then SUCCEEDED, interval 5, ceiling 20. -/
theorem wait_for_completion_pending_then_succeeded_witness :
    wait_for_completion (fun k => if k < 2 then runningResp else succResp) 20 5 =
      some (WaitOutcome.succeeded succResp 3) := by
  have h := wait_for_completion_pending_then_succeeded
    (fun k => if k < 2 then runningResp else succResp) 20 5 2 (by decide)
    (by intro k hk; interval_cases k <;> exact Or.inr rfl)
    (by rfl) (by decide)
  exact h

/-- Concrete instance of `wait_for_completion_always_running_times_out`:
always RUNNING, ceiling 10, interval 3, hence exactly 4 polls. -/
theorem wait_for_completion_always_running_times_out_witness :
    wait_for_completion (fun _ => runningResp) 10 3 =
      some (WaitOutcome.timeout 4) := by
  have h := wait_for_completion_always_running_times_out
    (fun _ => runningResp) 10 3 (by decide) (by decide) (fun _ => rfl)
  exact h

/-- Concrete instance of `wait_for_completion_failed_surfaces_message`:
one RUNNING poll, then FAILED with `message: "quota exceeded"`. -/
theorem wait_for_completion_failed_surfaces_message_witness :
    wait_for_completion (fun k => if k < 1 then runningResp else failResp) 20 5 =
      some (WaitOutcome.remoteFailure (JsonVal.str "quota exceeded") 2) := by
  have h := wait_for_completion_failed_surfaces_message
    (fun k => if k < 1 then runningResp else failResp) 20 5 1 failOutput "quota exceeded"
    (by decide)
    (by intro k hk; interval_cases k <;> exact rfl)
    (by rfl) (by rfl) (by rfl) (by decide)
  exact h

/-- Concrete instance of `waitLoop_unknown_status_retries`: a CANCELED
status makes the loop sleep and continue. -/
theorem waitLoop_unknown_status_retries_witness :
    waitLoop (fun _ => canceledResp) 10 5 2 0 0 =
      waitLoop (fun _ => canceledResp) 10 5 1 1 5 := by
  exact waitLoop_unknown_status_retries (fun _ => canceledResp) 10 5 1 0 0
    (JsonVal.obj [("task_status", JsonVal.str "CANCELED")]) "CANCELED"
    (by decide) rfl rfl (by decide) (by decide) (by decide) (by decide)

set_option maxRecDepth 4000 in
/-- C4, counterexample: `BailianTextToImageV2.create_image_task` does
not validate the prompt length.  With an 801-character prompt — past
the documented 800-character maximum — it performs one outbound network
call and returns the task id instead of failing with an
invalid-argument error before the call: the network-call counter is 1,
not 0. -/
theorem create_image_task_long_prompt_counterexample :
    create_image_task "wan2.2-t2i-flash" longPrompt none "1024*1024" 1
        (fun _ => .ok submitOkResp) = (1, .ok (JsonVal.str "T1")) ∧
    longPrompt.length = 801 := by
  refine ⟨rfl, ?_⟩
  show (String.mk (List.replicate 801 'a')).length = 801
  decide

/-- C4, amended: the qwen-image client's `generate_image` does validate
the prompt length: for every prompt longer than 800 characters it
raises the `ValueError` before any network call is made — the
network-call counter of the failing call is 0.  (The text2image-v2
`create_image_task` performs no such validation, see the
counterexample.) -/
theorem qwen_generate_image_long_prompt_rejected
    (prompt negative_prompt size : String) (prompt_extend watermark : Bool)
    (seed : Option Int) (n : Int) (callResult : Except String QwenResponse)
    (h : prompt.length > 800) :
    qwen_generate_image prompt negative_prompt size prompt_extend watermark seed n callResult
      = (0, QwenOutcome.raised "提示词长度不能超过800字符") := by
  unfold qwen_generate_image
  rw [if_pos h]

set_option maxRecDepth 4000 in
/-- Concrete instance of `qwen_generate_image_long_prompt_rejected`
at the 801-character prompt. -/
theorem qwen_generate_image_long_prompt_rejected_witness :
    qwen_generate_image longPrompt "" "1328*1328" true false none 1 (.error "down")
      = (0, QwenOutcome.raised "提示词长度不能超过800字符") := by
  apply qwen_generate_image_long_prompt_rejected longPrompt "" "1328*1328" true false
    none 1 (.error "down")
  show 800 < (String.mk (List.replicate 801 'a')).length
  decide

/-- C6: `generate_image` is exactly the composition of the submission
call and the completion wait, with no independent behavior — whenever
`create_image_task` returns a task id, `generate_image` returns
precisely what `wait_for_completion` (at the same `max_wait_time` and
the default 5-second interval) observes for that task id, unchanged. -/
theorem generate_image_is_submit_then_wait
    (model prompt : String) (negative_prompt : Option String) (size : String) (n : Int)
    (max_wait_time : Nat) (httpResponse : JsonVal → Except String JsonVal)
    (poll : JsonVal → Nat → JsonVal) (task_id : JsonVal)
    (hsubmit : (create_image_task model prompt negative_prompt size n httpResponse).2
      = .ok task_id) :
    generate_image model prompt negative_prompt size n max_wait_time httpResponse poll =
      .ok (wait_for_completion (poll task_id) max_wait_time 5) := by
  unfold generate_image
  rw [hsubmit]

/-- Concrete instance of `generate_image_is_submit_then_wait`, the §8
scenario: submit of `model="wan2.2-t2i-flash", prompt="a red rose",
size="1024*1024", n=1` against a mock backend returning task id "T1",
whose poll is RUNNING once and then SUCCEEDED with
`results=[{url:"http://x/1.png"}]` — `generate_image` returns that
SUCCEEDED poll result unchanged (after its 2 polls). -/
theorem generate_image_is_submit_then_wait_witness :
    generate_image "wan2.2-t2i-flash" "a red rose" none "1024*1024" 1 300
        (fun _ => .ok submitOkResp) (fun _ k => if k < 1 then runningResp else succResp) =
      .ok (some (WaitOutcome.succeeded succResp 2)) := by
  have h := generate_image_is_submit_then_wait "wan2.2-t2i-flash" "a red rose" none
    "1024*1024" 1 300 (fun _ => .ok submitOkResp)
    (fun _ k => if k < 1 then runningResp else succResp) (JsonVal.str "T1") rfl
  rw [h]
  rfl

/-- C7: the payload built by `create_image_task` from size `size` and
count `n` carries `parameters.size = size` and `parameters.n = n`, and
when no negative prompt is supplied its `input` dict has no
`negative_prompt` key; likewise the `parameters` dict built by the
qwen-image `generate_image` carries `size` and `n` and omits the
`negative_prompt` key when the negative prompt is empty. -/
theorem image_task_payload_roundtrip
    (model prompt size : String) (n : Int) (prompt_extend watermark : Bool) :
    ((buildImageTaskPayload model prompt none size n).getField "parameters").bind
        (fun p => p.getField "size") = some (JsonVal.str size) ∧
    ((buildImageTaskPayload model prompt none size n).getField "parameters").bind
        (fun p => p.getField "n") = some (JsonVal.num n) ∧
    ((buildImageTaskPayload model prompt none size n).getField "input").bind
        (fun i => i.getField "negative_prompt") = none ∧
    lookupKey (buildQwenImageParameters size n prompt_extend watermark "" none) "size"
      = some (JsonVal.str size) ∧
    lookupKey (buildQwenImageParameters size n prompt_extend watermark "" none) "n"
      = some (JsonVal.num n) ∧
    lookupKey (buildQwenImageParameters size n prompt_extend watermark "" none)
      "negative_prompt" = none := by
  exact ⟨rfl, rfl, rfl, rfl, rfl, rfl⟩

/-- C8, counterexample: a poll response lacking the `output` field is
not surfaced as a malformed-response error — the loop retries it.  With
a poller that always answers without `output` (ceiling 10, interval 5)
`wait_for_completion` polls twice (so the first missing-`output`
response was swallowed and retried) and ends in the Timeout error, not
in any malformed-response error. -/
theorem wait_missing_output_retried_counterexample :
    wait_for_completion (fun _ => noOutputResp) 10 5 =
      some (WaitOutcome.timeout 2) := rfl

/-- C8, amended: a submit 200 response whose `output.task_id` is
missing is surfaced to the caller as the distinguishable task-creation
error carrying the offending response; a poll 200 response lacking
`output`, however, is treated like a transient state — logged, slept
over and retried by the same loop — so it can only surface later as a
terminal status or as the Timeout error. -/
theorem missing_field_handling
    (resp : JsonVal) (model prompt : String) (negative_prompt : Option String)
    (size : String) (n : Int)
    (poll : Nat → JsonVal) (mw iv fuel calls elapsed : Nat)
    (hmiss : (resp.getField "output").bind (fun o => o.getField "task_id") = none)
    (hlt : elapsed < mw) (hnoout : (poll calls).getField "output" = none) :
    create_image_task model prompt negative_prompt size n (fun _ => .ok resp)
      = (1, .error (SubmitError.taskCreateFailed resp)) ∧
    waitLoop poll mw iv (fuel + 1) calls elapsed
      = waitLoop poll mw iv fuel (calls + 1) (elapsed + iv) := by
  constructor
  · cases hout : resp.getField "output" with
    | none => simp [create_image_task, hout]
    | some output =>
      rw [hout] at hmiss
      simp at hmiss
      simp [create_image_task, hout, hmiss]
  · exact waitLoop_transient_step poll mw iv fuel calls elapsed hlt
      (by unfold isTransient; rw [hnoout])

/-- Concrete instance of `missing_field_handling`: a submit response
whose `output` has no `task_id`, and a poller answering without
`output`. -/
theorem missing_field_handling_witness :
    create_image_task "wan2.2-t2i-flash" "a red rose" none "1024*1024" 1
        (fun _ => .ok noTaskIdResp)
      = (1, .error (SubmitError.taskCreateFailed noTaskIdResp)) ∧
    waitLoop (fun _ => noOutputResp) 10 5 2 0 0
      = waitLoop (fun _ => noOutputResp) 10 5 1 1 5 := by
  exact missing_field_handling noTaskIdResp "wan2.2-t2i-flash" "a red rose" none
    "1024*1024" 1 (fun _ => noOutputResp) 10 5 1 0 0 rfl (by decide) rfl

/-- C9: `synthesize_speech` raises (a `ValueError`) exactly in its
parameter-validation block, before the payload is built and before any
network call — the failing call's network counter is 0 — and once
validation has passed, every later failure (transport error, missing
`output` or `audio` field, audio download failure, decode failure) is
converted by the `except` handlers into the returned dict
`{'success': False, 'error': ..., 'audio_data': None}` (the `failed`
outcome), never raised to the caller. -/
theorem synthesize_speech_raises_only_in_validation
    (text voice format : String) (sample_rate : Int)
    (volume speech_rate pitch_rate : Rat) (backend : TTSBackend) :
    (∀ msg, tts_validate text voice format volume speech_rate pitch_rate = some msg →
      synthesize_speech text voice format sample_rate volume speech_rate pitch_rate backend
        = (0, TTSOutcome.raised msg)) ∧
    (tts_validate text voice format volume speech_rate pitch_rate = none →
      ((synthesize_speech text voice format sample_rate volume speech_rate pitch_rate
        backend).2).isRaised = false) := by
  constructor
  · intro msg hmsg
    unfold synthesize_speech
    rw [hmsg]
  · intro hnone
    simp only [synthesize_speech, hnone]
    repeat' split
    all_goals rfl

/-- Concrete instance of `synthesize_speech_raises_only_in_validation`:
an out-of-range volume raises before any network call, while a
transport failure after passing validation comes back as the
success-False dict, not as an exception. -/
theorem synthesize_speech_raises_only_in_validation_witness :
    synthesize_speech "hi" "Cherry" "wav" 22050 3 1 1 mockTTSBackend
      = (0, TTSOutcome.raised "音量范围应在0.1-2.0之间") ∧
    ((synthesize_speech "hi" "Cherry" "wav" 22050 1 1 1 mockTTSBackend).2).isRaised
      = false := by
  constructor
  · exact (synthesize_speech_raises_only_in_validation "hi" "Cherry" "wav" 22050 3 1 1
      mockTTSBackend).1 "音量范围应在0.1-2.0之间"
      (by norm_num [tts_validate, lookupKey, available_voices, available_formats,
        String.length])
  · exact (synthesize_speech_raises_only_in_validation "hi" "Cherry" "wav" 22050 1 1 1
      mockTTSBackend).2
      (by norm_num [tts_validate, lookupKey, available_voices, available_formats,
        String.length])

theorem readDict_setCell_alloc (h : PyHeap) (a : Nat) (ha : a < h.cells.length)
    (d d' : List (String × String)) :
    ((PyHeap.alloc h d).1.setCell (PyHeap.alloc h d).2 d').readDict a = h.readDict a := by
  unfold PyHeap.readDict PyHeap.setCell PyHeap.alloc
  simp only
  rw [List.get?_set_ne _ _ (by omega), List.get?_append ha]

/-- C10: `get_size_list` and `get_voice_list` return freshly allocated
copies of the client's catalog dicts: overwriting the returned dict
with arbitrary new contents leaves the client's own catalog cell — and
therefore the outcome of every subsequent size or voice validation —
unchanged.  (`get_format_list` is the same one-line copy of a third
catalog cell.) -/
theorem catalog_getters_return_copies
    (h : PyHeap) (sizesAddr voicesAddr : Nat) (d d' : List (String × String))
    (size voice : String)
    (hs : sizesAddr < h.cells.length) (hv : voicesAddr < h.cells.length) :
    ((get_size_list h sizesAddr).1.setCell (get_size_list h sizesAddr).2 d).readDict
        sizesAddr = h.readDict sizesAddr ∧
    sizeAccepted ((get_size_list h sizesAddr).1.setCell (get_size_list h sizesAddr).2 d)
        sizesAddr size = sizeAccepted h sizesAddr size ∧
    ((get_voice_list h voicesAddr).1.setCell (get_voice_list h voicesAddr).2 d').readDict
        voicesAddr = h.readDict voicesAddr ∧
    voiceAccepted ((get_voice_list h voicesAddr).1.setCell (get_voice_list h voicesAddr).2 d')
        voicesAddr voice = voiceAccepted h voicesAddr voice := by
  refine ⟨readDict_setCell_alloc h sizesAddr hs _ d, ?_,
    readDict_setCell_alloc h voicesAddr hv _ d', ?_⟩
  · unfold sizeAccepted get_size_list
    rw [readDict_setCell_alloc h sizesAddr hs _ d]
  · unfold voiceAccepted get_voice_list
    rw [readDict_setCell_alloc h voicesAddr hv _ d']

/-- Concrete instance of `catalog_getters_return_copies`: after wiping
the dict returned by the getter, the client still accepts the size
"1328*1328" and the voice "Cherry" from its own untouched catalog. -/
theorem catalog_getters_return_copies_witness :
    sizeAccepted
        ((get_size_list ⟨[[("1328*1328", "1:1")], [("Cherry", "Cherry - 甜美女声")]]⟩ 0).1.setCell
          (get_size_list ⟨[[("1328*1328", "1:1")], [("Cherry", "Cherry - 甜美女声")]]⟩ 0).2 [])
        0 "1328*1328" = true ∧
    voiceAccepted
        ((get_voice_list ⟨[[("1328*1328", "1:1")], [("Cherry", "Cherry - 甜美女声")]]⟩ 1).1.setCell
          (get_voice_list ⟨[[("1328*1328", "1:1")], [("Cherry", "Cherry - 甜美女声")]]⟩ 1).2 [])
        1 "Cherry" = true := by
  have h := catalog_getters_return_copies
    ⟨[[("1328*1328", "1:1")], [("Cherry", "Cherry - 甜美女声")]]⟩ 0 1 [] []
    "1328*1328" "Cherry" (by decide) (by decide)
  exact ⟨h.2.1.trans rfl, h.2.2.2.trans rfl⟩
